import Mathlib

/-!
Verification of the TypeScript result-pattern template
(channeladam/typescript-result-pattern-template).

This file shallowly embeds the runtime behaviour of the repository:
JavaScript values that can be thrown/caught are modelled by `JsValue`,
a computation that may throw is modelled by `Except JsValue`,
the two result classes `OkResult` / `ErrorResult` become the two
constructors of the inductive `Result`, and the operations and factory
functions are translated method-by-method from the source.  Logging is
modelled by returning the list of log entries a call emits (the console
logger itself is an external collaborator; a `LogEntry` records the
level, the console prefix text and the amended context chain that the
core passes to it).
-/

/-- Model of a JavaScript value as far as the error paths of this
library inspect one: `null`, `undefined`, primitives, plain
JSON-serialisable objects (carrying their `JSON.stringify` output),
objects whose serialisation throws, e.g. due to a circular reference
(carrying their `String(...)` coercion), `Error` instances and
`AssertionFailedError` instances (whose constructor fixes
`name = "AssertionFailedError"`). -/
inductive JsValue where
  | vNull
  | vUndefined
  | vBool (b : Bool)
  | vNumber (n : Int)
  | vString (s : String)
  | vPlainObject (jsonText : String)
  | vCircularObject (coercedText : String)
  | vError (message name : String) (stack cause : Option String)
  | vAssertionFailedError (message : String) (stack cause : Option String)
  deriving Repr, DecidableEq

namespace ObjectUtils

/-- TS `ObjectUtils.isNullOrUndefined`: `value == null` (matches both null and undefined). -/
def isNullOrUndefined : JsValue → Bool
  | .vNull => true
  | .vUndefined => true
  | _ => false

/-- TS `ObjectUtils.isTypeOfObject`: `value !== null && typeof value === "object"`. -/
def isTypeOfObject : JsValue → Bool
  | .vPlainObject _ => true
  | .vCircularObject _ => true
  | .vError _ _ _ _ => true
  | .vAssertionFailedError _ _ _ => true
  | _ => false

end ObjectUtils

namespace StringUtils

/-- TS `StringUtils.isString`. -/
def isString : JsValue → Bool
  | .vString _ => true
  | _ => false

end StringUtils

/-- TS `value instanceof Error` (AssertionFailedError extends Error). -/
def instanceOfError : JsValue → Bool
  | .vError _ _ _ _ => true
  | .vAssertionFailedError _ _ _ => true
  | _ => false

/-- TS `AssertionFailedError.isInstance`: `ObjectUtils.isInstanceOf(AssertionFailedError, error)`. -/
def AssertionFailedError.isInstance : JsValue → Bool
  | .vAssertionFailedError _ _ _ => true
  | _ => false

/-- JSON string escaping used by the `JSON.stringify` model. -/
def jsonEscapeChar (c : Char) : String :=
  if c = '\"' then "\\\""
  else if c = '\\' then "\\\\"
  else if c = '\n' then "\\n"
  else String.singleton c

/-- A JSON string literal. -/
def jsonQuote (s : String) : String :=
  "\"" ++ String.join (s.data.map jsonEscapeChar) ++ "\""

/-- One `"key":"value"` member; an absent (undefined) value produces no member,
as `JSON.stringify` omits properties whose value is `undefined`. -/
def jsonMember (key : String) : Option String → List String
  | none => []
  | some v => [jsonQuote key ++ ":" ++ jsonQuote v]

/-- Model of `JSON.stringify({ message, name, stack, cause })` for an `Error`. -/
def stringifyErrorFields (message name : String) (stack cause : Option String) : String :=
  "\x7b" ++
    String.intercalate ","
      (jsonMember "message" (some message) ++ jsonMember "name" (some name) ++
        jsonMember "stack" stack ++ jsonMember "cause" cause) ++
  "\x7d"

/-- Outcome of `JSON.stringify(value)`: a string, the JS value `undefined`
(for `undefined` input), or a thrown error (circular reference). -/
inductive JsonStringifyOutcome where
  | str (s : String)
  | jsUndefined
  | thrown
  deriving Repr, DecidableEq

/-- Model of the host primitive `JSON.stringify` on a `JsValue`. -/
def jsonStringify : JsValue → JsonStringifyOutcome
  | .vNull => .str "null"
  | .vUndefined => .jsUndefined
  | .vBool b => .str (if b then "true" else "false")
  | .vNumber n => .str (toString n)
  | .vString s => .str (jsonQuote s)
  | .vPlainObject jsonText => .str jsonText
  | .vCircularObject _ => .thrown
  | .vError message name stack cause => .str (stringifyErrorFields message name stack cause)
  | .vAssertionFailedError message stack cause =>
      .str (stringifyErrorFields message "AssertionFailedError" stack cause)

/-- Model of the host coercion `String(value)`. -/
def stringCoerce : JsValue → String
  | .vNull => "null"
  | .vUndefined => "undefined"
  | .vBool b => if b then "true" else "false"
  | .vNumber n => toString n
  | .vString s => s
  | .vPlainObject _ => "[object Object]"
  | .vCircularObject coercedText => coercedText
  | .vError message name _ _ => name ++ ": " ++ message
  | .vAssertionFailedError message _ _ => "AssertionFailedError: " ++ message

namespace ErrorUtils

/-- TS `ErrorUtils.toErrorString`: strings pass through (`String(error)`),
`Error` instances are serialised as their message/name/stack/cause fields,
everything else goes through `JSON.stringify` with a `String(error)`
fallback when serialisation throws.  `none` is the case in which
`JSON.stringify` returns the JS value `undefined` (input `undefined`),
which the TypeScript code returns as-is despite its `string` return type. -/
def toErrorString (error : JsValue) : Option String :=
  if StringUtils.isString error then some (stringCoerce error)
  else
    match error with
    | .vError message name stack cause => some (stringifyErrorFields message name stack cause)
    | .vAssertionFailedError message stack cause =>
        some (stringifyErrorFields message "AssertionFailedError" stack cause)
    | other =>
        match jsonStringify other with
        | .str s => some s
        | .jsUndefined => none
        | .thrown => some (stringCoerce other)

/-- TS `ErrorUtils._errorInstanceIdCharacters`. -/
def errorInstanceIdCharacters : List Char :=
  "ABCDEFGHIJKLMNOPQRSTUVWXYZ0123456789".data

/-- One evaluation of `pickCharacter`:
`_errorInstanceIdCharacters[Math.floor(Math.random() * 36)]`.
The random draw is modelled by the index it produces, which is in
`Fin 36` because `0 ≤ Math.random() < 1`. -/
def pickCharacter (randIndex : Fin 36) : Char :=
  errorInstanceIdCharacters.getD randIndex.val 'A'

/-- TS `ErrorUtils.createErrorInstanceId`: eight random characters as
`c1c2c3c4-c5c6c7c8`; `r` supplies the eight random draws. -/
def createErrorInstanceId (r : Fin 8 → Fin 36) : String :=
  String.mk
    [pickCharacter (r 0), pickCharacter (r 1), pickCharacter (r 2), pickCharacter (r 3),
     '-',
     pickCharacter (r 4), pickCharacter (r 5), pickCharacter (r 6), pickCharacter (r 7)]

end ErrorUtils

/-- Decidable check that a character is in `[A-Z0-9]`. -/
def isUpperAlnum (c : Char) : Bool :=
  ('A' ≤ c && c ≤ 'Z') || ('0' ≤ c && c ≤ '9')

/-- Decidable check that a string matches the regular expression
`[A-Z0-9]\x7b4\x7d-[A-Z0-9]\x7b4\x7d` (two groups of four, hyphen-separated). -/
def matchesErrorInstanceIdFormat (s : String) : Bool :=
  match s.data with
  | [a, b, c, d, dash, e, f, g, h] =>
      isUpperAlnum a && isUpperAlnum b && isUpperAlnum c && isUpperAlnum d &&
      dash = '-' &&
      isUpperAlnum e && isUpperAlnum f && isUpperAlnum g && isUpperAlnum h
  | _ => false

namespace LoggingUtils

/-- TS `LoggingUtils.formatStandardCallerContext`: `undefined` or an empty
array renders the fixed sentinel, otherwise the chain is joined with `.`.
(`!callerContext` is truthiness: only `undefined` is falsy here; the
empty array is caught by the length check.) -/
def formatStandardCallerContext : Option (List String) → String
  | none => "UNKNOWN CONTEXT"
  | some callerContext =>
      if callerContext.length = 0 then "UNKNOWN CONTEXT"
      else String.intercalate "." callerContext

end LoggingUtils

/-- TS `StandardLogPropertiesCore`: the caller context structure consumed by
the factory calls (`context?`, `errorInstanceId?`, `correlationId?`). -/
structure StandardLogPropertiesCore where
  context : Option (List String)
  errorInstanceId : Option String
  correlationId : Option String
  deriving Repr, DecidableEq

/-- TS `DefaultErrorResultFactoryOptions = StandardLogPropertiesCore &
ErrorResultFactoryLoggingOptions` (`log?: boolean`). -/
structure DefaultErrorResultFactoryOptions where
  context : Option (List String)
  errorInstanceId : Option String
  correlationId : Option String
  log : Option Bool
  deriving Repr, DecidableEq

/-- Passing a `StandardLogPropertiesCore` where
`DefaultErrorResultFactoryOptions` is expected (as the operation methods
do): the `log` property is absent, i.e. `undefined`. -/
def StandardLogPropertiesCore.toFactoryOptions
    (lp : StandardLogPropertiesCore) : DefaultErrorResultFactoryOptions :=
  { context := lp.context, errorInstanceId := lp.errorInstanceId,
    correlationId := lp.correlationId, log := none }

/-- TS `ErrorResultDetailsConstructorOptions`. -/
structure ErrorResultDetailsConstructorOptions where
  context : Option (List String)
  errorInstanceId : Option String
  correlationId : Option String
  errorCode : Option String
  errorMessage : Option String
  deriving Repr, DecidableEq

/-- The error result details discriminant tags
(`ErrorResultDetailsDiscriminantTags`; the custom set is empty in the
template, and tag uniqueness is enforced by this being an inductive). -/
inductive ErrorResultDetailsDiscriminantTag where
  | ApiError
  | AssertionFailedError
  | ShortCircuitedError
  | TechnicalError
  | UserError
  deriving Repr, DecidableEq

/-- The spec calls `StandardApiErrorResponse = HttpApiProblemDetails`.
Modelled from the spec: the file `apis/http.ietf.types.ts` defining
`HttpApiProblemDetails` is not among the provided sources; spec section 6
gives its shape as `\x7btype, title?, status, detail?, instance?,
...extension fields\x7d` (IETF HTTP problem details).  Extension fields
are carried verbatim as a key/value list. -/
structure StandardApiErrorResponse where
  type : String
  title : Option String
  status : Nat
  detail : Option String
  instanceField : Option String
  extensionFields : List (String × String)
  deriving Repr, DecidableEq

/-- The runtime state of an error result details instance
(`AbstractErrorResultDetails` private fields plus the variant
discriminant, and `ApiErrorResultDetails._errorResponse` when the
variant is `ApiError`). -/
structure AbstractErrorResultDetails where
  discriminantTag : ErrorResultDetailsDiscriminantTag
  context : Option (List String)
  errorMessageField : Option String
  errorCodeField : Option String
  errorInstanceIdField : Option String
  correlationIdField : Option String
  errorResponseField : Option StandardApiErrorResponse
  deriving Repr, DecidableEq

namespace AbstractErrorResultDetails

/-- TS `defaultErrorMessage` in `abstract-error-result-details.ts`. -/
def defaultErrorMessage : String := "Sorry, something went wrong."

/-- The `errorCode` getter. -/
def errorCode (d : AbstractErrorResultDetails) : Option String :=
  d.errorCodeField

/-- The `errorMessage` getter: `this._errorMessage ?? defaultErrorMessage`. -/
def errorMessage (d : AbstractErrorResultDetails) : String :=
  d.errorMessageField.getD defaultErrorMessage

/-- The `errorInstanceId` getter: if `_errorInstanceId` is null or
undefined it is assigned `ErrorUtils.createErrorInstanceId()` (whose
random draws are supplied by `r`) and then returned; the pair is the
returned value together with the post-call instance state. -/
def errorInstanceIdGet (d : AbstractErrorResultDetails) (r : Fin 8 → Fin 36) :
    String × AbstractErrorResultDetails :=
  match d.errorInstanceIdField with
  | some existingId => (existingId, d)
  | none =>
      let generated := ErrorUtils.createErrorInstanceId r
      (generated, { d with errorInstanceIdField := some generated })

/-- TS `formatErrorResult`:
`formattedContext - errorCode - errorMessage`, with the undefined guards
of the source (the `errorMessage` getter never yields undefined, so its
guard always takes the `String(...)` branch). -/
def formatErrorResult (d : AbstractErrorResultDetails) : String :=
  let formattedContext := LoggingUtils.formatStandardCallerContext d.context
  let errorCode := match d.errorCode with
    | none => ""
    | some c => c
  let errorMessage := d.errorMessage
  formattedContext ++ " - " ++ errorCode ++ " - " ++ errorMessage

end AbstractErrorResultDetails

/-- TS `new TechnicalErrorResultDetails(options)`. -/
def TechnicalErrorResultDetails.make
    (options : ErrorResultDetailsConstructorOptions) : AbstractErrorResultDetails :=
  { discriminantTag := .TechnicalError, context := options.context,
    errorMessageField := options.errorMessage, errorCodeField := options.errorCode,
    errorInstanceIdField := options.errorInstanceId,
    correlationIdField := options.correlationId, errorResponseField := none }

/-- TS `new AssertionFailedErrorResultDetails(options)`. -/
def AssertionFailedErrorResultDetails.make
    (options : ErrorResultDetailsConstructorOptions) : AbstractErrorResultDetails :=
  { discriminantTag := .AssertionFailedError, context := options.context,
    errorMessageField := options.errorMessage, errorCodeField := options.errorCode,
    errorInstanceIdField := options.errorInstanceId,
    correlationIdField := options.correlationId, errorResponseField := none }

/-- TS `ApiErrorResultConstructorOptions`: constructor options without
`errorInstanceId` and `errorMessage` (those come from the response). -/
structure ApiErrorResultConstructorOptions where
  context : Option (List String)
  correlationId : Option String
  errorCode : Option String
  deriving Repr, DecidableEq

/-- TS `new ApiErrorResultDetails(options, apiErrorResponse)`: the message
is `apiErrorResponse.title ?? apiErrorResponse.detail`, the instance id
is `apiErrorResponse.instance`, and the full response is kept in
`_errorResponse`. -/
def ApiErrorResultDetails.make (options : ApiErrorResultConstructorOptions)
    (apiErrorResponse : StandardApiErrorResponse) : AbstractErrorResultDetails :=
  { discriminantTag := .ApiError, context := options.context,
    errorMessageField :=
      match apiErrorResponse.title with
      | some t => some t
      | none => apiErrorResponse.detail,
    errorCodeField := options.errorCode,
    errorInstanceIdField := apiErrorResponse.instanceField,
    correlationIdField := options.correlationId,
    errorResponseField := some apiErrorResponse }

/-- The `errorResponse` getter of `ApiErrorResultDetails`. -/
def AbstractErrorResultDetails.errorResponse
    (d : AbstractErrorResultDetails) : Option StandardApiErrorResponse :=
  d.errorResponseField

/-- Log levels of the console logger collaborator: `_errorCore` goes to
`console.error`, `_debugCore` to `console.debug`, and so on. -/
inductive LogLevel where
  | errorLevel
  | debugLevel
  | infoLevel
  deriving Repr, DecidableEq

/-- One log call emitted by the core: its console level, the prefix text
of the `ConsoleLogger` method used, and the amended context chain the
factory passes to the logger. -/
structure LogEntry where
  level : LogLevel
  prefixText : String
  context : List String
  deriving Repr, DecidableEq

/-- A Result Pattern result: `OkResult` holds the ok value, `ErrorResult`
holds the error details instance. -/
inductive Result (TOkValue : Type) where
  | okResult (value : TOkValue)
  | errorResult (errorDetails : AbstractErrorResultDetails)
  deriving Repr, DecidableEq

namespace Result

/-- TS `isOk` (true on `OkResult`, false on `ErrorResult`). -/
def isOk : Result α → Bool
  | .okResult _ => true
  | .errorResult _ => false

/-- TS `isError` (false on `OkResult`, true on `ErrorResult`). -/
def isError : Result α → Bool
  | .okResult _ => false
  | .errorResult _ => true

/-- The `errorDetails` member: `undefined` on `OkResult`, the details on
`ErrorResult`. -/
def errorDetails : Result α → Option AbstractErrorResultDetails
  | .okResult _ => none
  | .errorResult d => some d

end Result

/-- Passing a `string | undefined` value into an `unknown` parameter. -/
def optStringToJs : Option String → JsValue
  | some s => .vString s
  | none => .vUndefined

/-- Whether an `Except`-modelled call returned normally (did not throw). -/
def returnsNormally : Except JsValue α → Bool
  | .ok _ => true
  | .error _ => false

namespace ResultFactory

/-- TS `const classContext = "ResultFactory"`. -/
def classContext : String := "ResultFactory"

/-- TS `JSON.stringify` of the `optionalParams` array (arrays serialise
element-wise; an `undefined` element serialises as `null`; the model
assumes the parameters themselves are serialisable, the only way the
template exercises them). -/
def stringifyParamsArray (optionalParams : List JsValue) : String :=
  "[" ++
    String.intercalate ","
      (optionalParams.map fun p =>
        match jsonStringify p with
        | .str s => s
        | _ => "null") ++
  "]"

/-- TS `ResultFactory._createErrorResultConstructorOptions`: format the
message with `ErrorUtils.toErrorString` and append the stringified
optional parameters with a ` - ` separator when any are present (if the
formatted message is the JS value `undefined`, `+=` coerces it to the
text `undefined` first, as JS string concatenation does). -/
def createErrorResultConstructorOptions (options : DefaultErrorResultFactoryOptions)
    (errorCode : Option String) (message : JsValue) (optionalParams : List JsValue) :
    ErrorResultDetailsConstructorOptions :=
  let formattedMessage := ErrorUtils.toErrorString message
  let formattedMessage :=
    if optionalParams.length > 0 then
      some ((match formattedMessage with
              | some s => s
              | none => "undefined") ++ " - " ++ stringifyParamsArray optionalParams)
    else formattedMessage
  { context := options.context, errorInstanceId := options.errorInstanceId,
    errorMessage := formattedMessage, errorCode := errorCode,
    correlationId := options.correlationId }

/-- The amended context chain every default-logging path builds:
`options.context ? [contextPrefix, ...options.context] : [contextPrefix]`
(an empty supplied array is truthy, and spreading it adds nothing, so
both branches coincide for it). -/
def amendContext (contextMarker : String) : Option (List String) → List String
  | some ctx => contextMarker :: ctx
  | none => [contextMarker]

/-- TS `ResultFactory.technicalError`: logs via `LOG.technicalError`
(console error level, prefix `TECHNICAL_ERROR`) unless
`options.log === false`, then builds the `TechnicalErrorResultDetails`
error result.  Returns the result together with the emitted log calls. -/
def technicalError (options : DefaultErrorResultFactoryOptions)
    (errorCode : Option String) (technicalErrorMessage : JsValue)
    (optionalParams : List JsValue) : Result α × List LogEntry :=
  let logCalls :=
    if options.log ≠ some false then
      [{ level := .errorLevel, prefixText := "TECHNICAL_ERROR",
         context := amendContext (classContext ++ " - TechnicalErrorResult") options.context }]
    else []
  let createOptions :=
    createErrorResultConstructorOptions options errorCode technicalErrorMessage optionalParams
  (.errorResult (TechnicalErrorResultDetails.make createOptions), logCalls)

/-- TS `ResultFactory.assertionFailedError`: logs via `LOG.assertionFailed`
(console error level, prefix `ASSERTION_FAILED`) unless
`options.log === false`, then builds the
`AssertionFailedErrorResultDetails` error result. -/
def assertionFailedError (options : DefaultErrorResultFactoryOptions)
    (errorCode : Option String) (assertionFailedErrorMessage : JsValue)
    (optionalParams : List JsValue) : Result α × List LogEntry :=
  let logCalls :=
    if options.log ≠ some false then
      [{ level := .errorLevel, prefixText := "ASSERTION_FAILED",
         context := amendContext (classContext ++ " - AssertionFailedErrorResult") options.context }]
    else []
  let createOptions :=
    createErrorResultConstructorOptions options errorCode assertionFailedErrorMessage optionalParams
  (.errorResult (AssertionFailedErrorResultDetails.make createOptions), logCalls)

/-- TS `ResultFactory.fromErrorObject`: null/undefined/non-object caught
values and all objects except `AssertionFailedError` instances become a
technical error result; `AssertionFailedError` instances become an
assertion-failed error result.  Both paths pass `undefined` as the error
code; the non-object/other paths pre-stringify the caught value with
`ErrorUtils.toErrorString`. -/
def fromErrorObject (logProperties : StandardLogPropertiesCore) (err : JsValue) :
    Result α × List LogEntry :=
  if ObjectUtils.isNullOrUndefined err || !ObjectUtils.isTypeOfObject err then
    technicalError logProperties.toFactoryOptions none
      (optStringToJs (ErrorUtils.toErrorString err)) []
  else if AssertionFailedError.isInstance err then
    assertionFailedError logProperties.toFactoryOptions none err []
  else
    technicalError logProperties.toFactoryOptions none
      (optStringToJs (ErrorUtils.toErrorString err)) []

/-- TS `ResultFactory.tryCatchDefault`: run `fn`; wrap a normal return in an
ok result; delegate a thrown value to `fromErrorObject`.  The outer
`Except` records whether the call itself throws to its caller (it never
does: every branch returns a result). -/
def tryCatchDefault (logProperties : StandardLogPropertiesCore)
    (fn : Unit → Except JsValue α) :
    Except JsValue (Result α) × List LogEntry :=
  match fn () with
  | .ok v => (.ok (.okResult v), [])
  | .error err =>
      let handled := fromErrorObject logProperties err
      (.ok handled.1, handled.2)

/-- TS `ResultFactory.tryCatchDefaultAsync`: identical to `tryCatchDefault`
modulo the single `await`; in this pure embedding a promise is its
resolved value or its rejection reason, so the body coincides. -/
def tryCatchDefaultAsync (logProperties : StandardLogPropertiesCore)
    (fn : Unit → Except JsValue α) :
    Except JsValue (Result α) × List LogEntry :=
  match fn () with
  | .ok v => (.ok (.okResult v), [])
  | .error err =>
      let handled := fromErrorObject logProperties err
      (.ok handled.1, handled.2)

/-- TS `ResultFactory.tryCatch`: run `fn`; wrap a normal return in an ok
result; on a thrown value return `errorResultFactory(err)` verbatim (a
throw from the factory itself is not caught). -/
def tryCatch (fn : Unit → Except JsValue α)
    (errorResultFactory : JsValue → Except JsValue (Result α)) :
    Except JsValue (Result α) × List LogEntry :=
  match fn () with
  | .ok v => (.ok (.okResult v), [])
  | .error err => (errorResultFactory err, [])

/-- TS `ResultFactory.tryCatchAsync`: identical to `tryCatch` modulo the
single `await` (see `tryCatchDefaultAsync`). -/
def tryCatchAsync (fn : Unit → Except JsValue α)
    (errorResultFactory : JsValue → Except JsValue (Result α)) :
    Except JsValue (Result α) × List LogEntry :=
  match fn () with
  | .ok v => (.ok (.okResult v), [])
  | .error err => (errorResultFactory err, [])

/-- TS `ResultFactory.wrapDefault`: returns the function that applies
`tryCatchDefault` around `fn` with the forwarded arguments. -/
def wrapDefault (logProperties : StandardLogPropertiesCore)
    (fn : γ → Except JsValue α) :
    γ → Except JsValue (Result α) × List LogEntry :=
  fun args => tryCatchDefault logProperties (fun _ => fn args)

/-- TS `ResultFactory.wrapDefaultAsync`: returns the function that applies
`tryCatchDefaultAsync` around `fn` with the forwarded arguments. -/
def wrapDefaultAsync (logProperties : StandardLogPropertiesCore)
    (fn : γ → Except JsValue α) :
    γ → Except JsValue (Result α) × List LogEntry :=
  fun args => tryCatchDefaultAsync logProperties (fun _ => fn args)

/-- TS `ResultFactory.wrap`: returns the function that applies `tryCatch`
around `fn` with the forwarded arguments. -/
def wrap (fn : γ → Except JsValue α)
    (errorResultFactory : JsValue → Except JsValue (Result α)) :
    γ → Except JsValue (Result α) × List LogEntry :=
  fun args => tryCatch (fun _ => fn args) errorResultFactory

/-- TS `ResultFactory.wrapAsync`: returns the function that applies
`tryCatchAsync` around `fn` with the forwarded arguments. -/
def wrapAsync (fn : γ → Except JsValue α)
    (errorResultFactory : JsValue → Except JsValue (Result α)) :
    γ → Except JsValue (Result α) × List LogEntry :=
  fun args => tryCatchAsync (fun _ => fn args) errorResultFactory

end ResultFactory

/-- The union type returned by `foldCatchDefault` / `foldCatch`:
the return value of the `onOk` callback, the error result produced when
the `onOk` callback throws, or the return value of the `onError` callback
(`TNextOkValue | ErrorResult<...> | TErrorReturn`). -/
inductive FoldReturn (β γ : Type) where
  | okReturn (b : β)
  | caughtErrorResult (r : Result β)
  | errorReturn (c : γ)
  deriving Repr, DecidableEq

namespace Result

/-- TS `mapNoCatch`.  `OkResult`: `new OkResult(onOk(this.value))`, a throw
from `onOk` propagating uncaught.  `ErrorResult`: returns `this`
(re-typed), never calling `onOk`.  No branch logs. -/
def mapNoCatch (r : Result α) (onOk : α → Except JsValue β) :
    Except JsValue (Result β) × List LogEntry :=
  match r with
  | .okResult v =>
      (match onOk v with
       | .ok nextValue => .ok (.okResult nextValue)
       | .error err => .error err, [])
  | .errorResult d => (.ok (.errorResult d), [])

/-- TS `mapCatchDefault`.  `OkResult`: `new OkResult(onOk(this.value))`,
a throw caught and turned into
`Result.technicalError(logProperties, "UNEXPECTED", err)`.
`ErrorResult`: returns `this` (re-typed). -/
def mapCatchDefault (r : Result α) (logProperties : StandardLogPropertiesCore)
    (onOk : α → Except JsValue β) :
    Except JsValue (Result β) × List LogEntry :=
  match r with
  | .okResult v =>
      (match onOk v with
       | .ok nextValue => (.ok (.okResult nextValue), [])
       | .error err =>
           let handled :=
             ResultFactory.technicalError logProperties.toFactoryOptions
               (some "UNEXPECTED") err []
           (.ok handled.1, handled.2))
  | .errorResult d => (.ok (.errorResult d), [])

/-- TS `mapCatch`.  `OkResult`: `new OkResult(onOk(this.value))`, a throw
caught and answered with `errorResultFactory(err)` verbatim (a throw
from the factory itself is not caught).  `ErrorResult`: returns `this`
(re-typed).  No branch logs. -/
def mapCatch (r : Result α) (onOk : α → Except JsValue β)
    (errorResultFactory : JsValue → Except JsValue (Result β)) :
    Except JsValue (Result β) × List LogEntry :=
  match r with
  | .okResult v =>
      (match onOk v with
       | .ok nextValue => (.ok (.okResult nextValue), [])
       | .error err => (errorResultFactory err, []))
  | .errorResult d => (.ok (.errorResult d), [])

/-- TS `andThenNoCatch`.  `OkResult`: `onOk(this.value)`, a throw
propagating uncaught.  `ErrorResult`: returns `this` (re-typed), never
calling `onOk`. -/
def andThenNoCatch (r : Result α) (onOk : α → Except JsValue (Result β)) :
    Except JsValue (Result β) × List LogEntry :=
  match r with
  | .okResult v => (onOk v, [])
  | .errorResult d => (.ok (.errorResult d), [])

/-- TS `andThenCatchDefault`.  `OkResult`: `onOk(this.value)` with a throw
caught and turned into `Result.technicalError(logProperties,
"UNEXPECTED", err)`.  `ErrorResult`: returns `this` (re-typed). -/
def andThenCatchDefault (r : Result α) (logProperties : StandardLogPropertiesCore)
    (onOk : α → Except JsValue (Result β)) :
    Except JsValue (Result β) × List LogEntry :=
  match r with
  | .okResult v =>
      (match onOk v with
       | .ok next => (.ok next, [])
       | .error err =>
           let handled :=
             ResultFactory.technicalError logProperties.toFactoryOptions
               (some "UNEXPECTED") err []
           (.ok handled.1, handled.2))
  | .errorResult d => (.ok (.errorResult d), [])

/-- TS `andThenCatch`.  `OkResult`: `onOk(this.value)` with a throw caught
and answered with `errorResultFactory(err)`.  `ErrorResult`: returns
`this` (re-typed). -/
def andThenCatch (r : Result α) (onOk : α → Except JsValue (Result β))
    (errorResultFactory : JsValue → Except JsValue (Result β)) :
    Except JsValue (Result β) × List LogEntry :=
  match r with
  | .okResult v =>
      (match onOk v with
       | .ok next => (.ok next, [])
       | .error err => (errorResultFactory err, []))
  | .errorResult d => (.ok (.errorResult d), [])

/-- TS `orElseNoCatch`.  `OkResult`: returns `this` (re-typed), never
calling `onError`.  `ErrorResult`: `onError(this.errorDetails)`, a throw
propagating uncaught. -/
def orElseNoCatch (r : Result α)
    (onError : AbstractErrorResultDetails → Except JsValue (Result α)) :
    Except JsValue (Result α) × List LogEntry :=
  match r with
  | .okResult v => (.ok (.okResult v), [])
  | .errorResult d => (onError d, [])

/-- TS `orElseCatchDefault`.  `OkResult`: returns `this` (re-typed).
`ErrorResult`: `onError(this.errorDetails)` with a throw caught and
turned into `Result.technicalError(logProperties, "UNEXPECTED", err)`. -/
def orElseCatchDefault (r : Result α) (logProperties : StandardLogPropertiesCore)
    (onError : AbstractErrorResultDetails → Except JsValue (Result α)) :
    Except JsValue (Result α) × List LogEntry :=
  match r with
  | .okResult v => (.ok (.okResult v), [])
  | .errorResult d =>
      match onError d with
      | .ok next => (.ok next, [])
      | .error err =>
          let handled :=
            ResultFactory.technicalError logProperties.toFactoryOptions
              (some "UNEXPECTED") err []
          (.ok handled.1, handled.2)

/-- TS `orElseCatch`.  `OkResult`: returns `this` (re-typed).
`ErrorResult`: `onError(this.errorDetails)` with a throw caught and
answered with `errorResultFactory(err)`. -/
def orElseCatch (r : Result α)
    (onError : AbstractErrorResultDetails → Except JsValue (Result α))
    (errorResultFactory : JsValue → Except JsValue (Result α)) :
    Except JsValue (Result α) × List LogEntry :=
  match r with
  | .okResult v => (.ok (.okResult v), [])
  | .errorResult d =>
      match onError d with
      | .ok next => (.ok next, [])
      | .error err => (errorResultFactory err, [])

/-- TS `foldCatchDefault`.  `OkResult`: `onOk(this.value)` with a throw
caught and turned into `Result.technicalError(logProperties,
"UNEXPECTED", err)`.  `ErrorResult`: `onError(this.errorDetails)` with
no try/catch around it, so a throw from `onError` propagates. -/
def foldCatchDefault (r : Result α) (logProperties : StandardLogPropertiesCore)
    (onOk : α → Except JsValue β)
    (onError : AbstractErrorResultDetails → Except JsValue γ) :
    Except JsValue (FoldReturn β γ) × List LogEntry :=
  match r with
  | .okResult v =>
      (match onOk v with
       | .ok b => (.ok (.okReturn b), [])
       | .error err =>
           let handled :=
             ResultFactory.technicalError logProperties.toFactoryOptions
               (some "UNEXPECTED") err []
           (.ok (.caughtErrorResult handled.1), handled.2))
  | .errorResult d =>
      (match onError d with
       | .ok c => .ok (.errorReturn c)
       | .error err => .error err, [])

/-- TS `foldCatch`.  `OkResult`: `onOk(this.value)` with a throw caught and
answered with `onOkErrorResultFactory(err)`.  `ErrorResult`:
`onError(this.errorDetails)` with no try/catch around it. -/
def foldCatch (r : Result α) (onOk : α → Except JsValue β)
    (onOkErrorResultFactory : JsValue → Except JsValue (Result β))
    (onError : AbstractErrorResultDetails → Except JsValue γ) :
    Except JsValue (FoldReturn β γ) × List LogEntry :=
  match r with
  | .okResult v =>
      (match onOk v with
       | .ok b => (.ok (.okReturn b), [])
       | .error err =>
           match onOkErrorResultFactory err with
           | .ok res => (.ok (.caughtErrorResult res), [])
           | .error x => (.error x, []))
  | .errorResult d =>
      (match onError d with
       | .ok c => .ok (.errorReturn c)
       | .error err => .error err, [])

end Result

/-- The error details carried by an operation outcome, when the call
returned normally with an error result. -/
def resultDetailsOf : Except JsValue (Result β) → Option AbstractErrorResultDetails
  | .ok (.errorResult d) => some d
  | _ => none

/-- The error details carried by a `foldCatchDefault`/`foldCatch`
outcome, when the call returned normally with the caught-error branch. -/
def foldReturnDetailsOf : Except JsValue (FoldReturn β γ) → Option AbstractErrorResultDetails
  | .ok (.caughtErrorResult (.errorResult d)) => some d
  | _ => none

/-- Sample caller log properties used to instantiate theorems on
concrete inputs. -/
def sampleLogProps : StandardLogPropertiesCore :=
  { context := some ["Domain", "App"], errorInstanceId := none, correlationId := none }

/-- Sample error details used to instantiate theorems on concrete inputs. -/
def sampleDetails : AbstractErrorResultDetails :=
  TechnicalErrorResultDetails.make
    { context := some ["X"], errorInstanceId := none, correlationId := none,
      errorCode := some "TE", errorMessage := some "boom" }

/-- C2: `Failure(e).andThen(f)` and `Success(v).orElse(f)` short-circuit.
In this pure embedding, "never invokes the callback" is expressed by the
outcome being the same for every callback: both equations have the
callback universally quantified on the left and absent from the right,
which is exactly the error (resp. ok) result unchanged.  "The same
instance" of the source becomes value equality here. -/
theorem C2_chaining_short_circuit {α β : Type}
    (d : AbstractErrorResultDetails) (v : α)
    (onOk : α → Except JsValue (Result β))
    (onError : AbstractErrorResultDetails → Except JsValue (Result α)) :
    Result.andThenNoCatch (.errorResult d) onOk = (.ok (.errorResult d), [])
    ∧ Result.orElseNoCatch (.okResult v) onError = (.ok (.okResult v), []) := by
  constructor
  · rfl
  · rfl

/-- C3: `Success(v).map(id) == Success(v)` in value terms, and
`Failure(e).map(f)` never invokes `f` (the outcome is independent of the
universally quantified `f`) and carries the same error details `e`. -/
theorem C3_map_identity_laws {α β : Type} (v : α)
    (d : AbstractErrorResultDetails) (f : α → Except JsValue β) :
    Result.mapNoCatch (.okResult v) (fun x => .ok x) = (.ok (.okResult v), [])
    ∧ Result.mapNoCatch (.errorResult d) f = (.ok (.errorResult d), []) := by
  constructor
  · rfl
  · rfl

/-- C1 (amended): catch-policy triad on an ok result whose callback
throws `X`.  `mapNoCatch` propagates `X` uncaught (the outcome is the
thrown value, no result); `mapCatchDefault` returns a
`TechnicalErrorResultDetails` error result with error code `UNEXPECTED`
whose stored message is exactly `ErrorUtils.toErrorString X` — so
whenever the stringification of `X` produces a string, the accessor
yields it, while for `X = undefined` no string is stored and the
accessor falls back to the fixed default (see the counterexample) — and
emits exactly one log call, which is at the error level; `mapCatch`
answers with `errorResultFactory X` verbatim and emits no log call from
the core. -/
theorem C1_catch_policy_laws {α β : Type} (v : α) (X : JsValue)
    (onOk : α → Except JsValue β)
    (errorResultFactory : JsValue → Except JsValue (Result β))
    (lp : StandardLogPropertiesCore)
    (hthrow : onOk v = .error X) :
    Result.mapNoCatch (.okResult v) onOk = (.error X, [])
    ∧ (resultDetailsOf (Result.mapCatchDefault (.okResult v) lp onOk).1).map
        (fun d => d.discriminantTag) = some .TechnicalError
    ∧ (resultDetailsOf (Result.mapCatchDefault (.okResult v) lp onOk).1).map
        (fun d => d.errorCodeField) = some (some "UNEXPECTED")
    ∧ (resultDetailsOf (Result.mapCatchDefault (.okResult v) lp onOk).1).map
        (fun d => d.errorMessageField) = some (ErrorUtils.toErrorString X)
    ∧ (∀ s, ErrorUtils.toErrorString X = some s →
        (resultDetailsOf (Result.mapCatchDefault (.okResult v) lp onOk).1).map
          (fun d => d.errorMessage) = some s)
    ∧ (Result.mapCatchDefault (.okResult v) lp onOk).2.map (fun entry => entry.level)
        = [.errorLevel]
    ∧ Result.mapCatch (.okResult v) onOk errorResultFactory = (errorResultFactory X, [])
    ∧ (X = .vUndefined →
        (resultDetailsOf (Result.mapCatchDefault (.okResult v) lp onOk).1).map
          (fun d => d.errorMessage)
          = some AbstractErrorResultDetails.defaultErrorMessage) := by
  refine ⟨?_, ?_, ?_, ?_, ?_, ?_, ?_, ?_⟩
  · simp [Result.mapNoCatch, hthrow]
  · simp [Result.mapCatchDefault, hthrow, ResultFactory.technicalError,
      ResultFactory.createErrorResultConstructorOptions, TechnicalErrorResultDetails.make,
      resultDetailsOf, StandardLogPropertiesCore.toFactoryOptions]
  · simp [Result.mapCatchDefault, hthrow, ResultFactory.technicalError,
      ResultFactory.createErrorResultConstructorOptions, TechnicalErrorResultDetails.make,
      resultDetailsOf, StandardLogPropertiesCore.toFactoryOptions]
  · simp [Result.mapCatchDefault, hthrow, ResultFactory.technicalError,
      ResultFactory.createErrorResultConstructorOptions, TechnicalErrorResultDetails.make,
      resultDetailsOf, StandardLogPropertiesCore.toFactoryOptions]
  · intro s hs
    simp [Result.mapCatchDefault, hthrow, ResultFactory.technicalError,
      ResultFactory.createErrorResultConstructorOptions, TechnicalErrorResultDetails.make,
      resultDetailsOf, StandardLogPropertiesCore.toFactoryOptions,
      AbstractErrorResultDetails.errorMessage, hs]
  · simp [Result.mapCatchDefault, hthrow, ResultFactory.technicalError,
      StandardLogPropertiesCore.toFactoryOptions]
  · simp [Result.mapCatch, hthrow]
  · intro hX
    subst hX
    simp [Result.mapCatchDefault, hthrow, ResultFactory.technicalError,
      ResultFactory.createErrorResultConstructorOptions, TechnicalErrorResultDetails.make,
      resultDetailsOf, StandardLogPropertiesCore.toFactoryOptions, optStringToJs,
      ErrorUtils.toErrorString, StringUtils.isString, jsonStringify,
      AbstractErrorResultDetails.errorMessage]

/-- C1 counterexample: a callback that performs `throw undefined` throws
the in-scope value `X = undefined`, for which `JSON.stringify` yields
the JS value `undefined` (not a string); no message is stored and the
`errorMessage` accessor of the resulting Technical failure returns the
fixed default, which encodes nothing of `X` — neither its JSON
serialisation (there is none) nor its raw coercion. -/
theorem C1_counterexample_throw_undefined :
    (resultDetailsOf (Result.mapCatchDefault (.okResult 0) sampleLogProps
        (fun (_ : Nat) => (Except.error JsValue.vUndefined : Except JsValue Nat))).1).map
      (fun d => d.errorMessageField) = some none
    ∧ (resultDetailsOf (Result.mapCatchDefault (.okResult 0) sampleLogProps
        (fun (_ : Nat) => (Except.error JsValue.vUndefined : Except JsValue Nat))).1).map
      (fun d => d.errorMessage) = some "Sorry, something went wrong."
    ∧ "Sorry, something went wrong." ≠ stringCoerce JsValue.vUndefined := by
  refine ⟨?_, ?_, ?_⟩ <;> decide

/-- C1 witness: the catch-policy triad at the concrete throwing callback
`fun _ => throw "boom"` over `Nat`, with a factory producing a fixed
error result. -/
theorem C1_catch_policy_laws_witness :
    (fun (_ : Nat) => (Except.error (JsValue.vString "boom") : Except JsValue Nat)) 0
        = Except.error (JsValue.vString "boom")
    ∧ (Result.mapNoCatch (.okResult 0)
          (fun (_ : Nat) => (Except.error (JsValue.vString "boom") : Except JsValue Nat))
        = (.error (JsValue.vString "boom"), [])
      ∧ (resultDetailsOf (Result.mapCatchDefault (.okResult 0) sampleLogProps
            (fun (_ : Nat) => (Except.error (JsValue.vString "boom") : Except JsValue Nat))).1).map
          (fun d => d.discriminantTag) = some .TechnicalError
      ∧ (resultDetailsOf (Result.mapCatchDefault (.okResult 0) sampleLogProps
            (fun (_ : Nat) => (Except.error (JsValue.vString "boom") : Except JsValue Nat))).1).map
          (fun d => d.errorCodeField) = some (some "UNEXPECTED")
      ∧ (resultDetailsOf (Result.mapCatchDefault (.okResult 0) sampleLogProps
            (fun (_ : Nat) => (Except.error (JsValue.vString "boom") : Except JsValue Nat))).1).map
          (fun d => d.errorMessageField) = some (ErrorUtils.toErrorString (JsValue.vString "boom"))
      ∧ ((resultDetailsOf (Result.mapCatchDefault (.okResult 0) sampleLogProps
            (fun (_ : Nat) => (Except.error (JsValue.vString "boom") : Except JsValue Nat))).1).map
          (fun d => d.errorMessage) = some "boom")
      ∧ (Result.mapCatchDefault (.okResult 0) sampleLogProps
            (fun (_ : Nat) => (Except.error (JsValue.vString "boom") : Except JsValue Nat))).2.map
          (fun entry => entry.level) = [.errorLevel]
      ∧ Result.mapCatch (.okResult 0)
            (fun (_ : Nat) => (Except.error (JsValue.vString "boom") : Except JsValue Nat))
            (fun _ => .ok (.errorResult sampleDetails))
          = ((fun _ => .ok (.errorResult sampleDetails) : JsValue → Except JsValue (Result Nat))
               (JsValue.vString "boom"), [])
      ∧ (resultDetailsOf (Result.mapCatchDefault (.okResult 0) sampleLogProps
            (fun (_ : Nat) => (Except.error JsValue.vUndefined : Except JsValue Nat))).1).map
          (fun d => d.errorMessage) = some AbstractErrorResultDetails.defaultErrorMessage) :=
  ⟨rfl,
    (C1_catch_policy_laws 0 (JsValue.vString "boom") _
        (fun _ => .ok (.errorResult sampleDetails)) sampleLogProps rfl).1,
    (C1_catch_policy_laws 0 (JsValue.vString "boom") _
        (fun _ => .ok (.errorResult sampleDetails)) sampleLogProps rfl).2.1,
    (C1_catch_policy_laws 0 (JsValue.vString "boom") _
        (fun _ => .ok (.errorResult sampleDetails)) sampleLogProps rfl).2.2.1,
    (C1_catch_policy_laws 0 (JsValue.vString "boom") _
        (fun _ => .ok (.errorResult sampleDetails)) sampleLogProps rfl).2.2.2.1,
    (C1_catch_policy_laws 0 (JsValue.vString "boom") _
        (fun _ => .ok (.errorResult sampleDetails)) sampleLogProps rfl).2.2.2.2.1 "boom" rfl,
    (C1_catch_policy_laws 0 (JsValue.vString "boom") _
        (fun _ => .ok (.errorResult sampleDetails)) sampleLogProps rfl).2.2.2.2.2.1,
    (C1_catch_policy_laws 0 (JsValue.vString "boom") _
        (fun _ => .ok (.errorResult sampleDetails)) sampleLogProps rfl).2.2.2.2.2.2.1,
    (C1_catch_policy_laws 0 JsValue.vUndefined
        (fun (_ : Nat) => (Except.error JsValue.vUndefined : Except JsValue Nat))
        (fun _ => .ok (.errorResult sampleDetails)) sampleLogProps rfl).2.2.2.2.2.2.2 rfl⟩

/-- C7: `formatErrorResult()` output shape.  A present, non-empty
context is joined with `.`; an absent or empty context renders the fixed
`UNKNOWN CONTEXT` sentinel; and the concrete instance from the spec
produces `Domain.App.Service.op - TE - boom`. -/
theorem C7_format_error_result :
    (∀ (d : AbstractErrorResultDetails) (ctx : List String) (code msg : String),
        d.context = some ctx → ctx ≠ [] →
        d.errorCodeField = some code → d.errorMessageField = some msg →
        d.formatErrorResult = String.intercalate "." ctx ++ " - " ++ code ++ " - " ++ msg)
    ∧ (∀ (d : AbstractErrorResultDetails) (code msg : String),
        (d.context = none ∨ d.context = some []) →
        d.errorCodeField = some code → d.errorMessageField = some msg →
        d.formatErrorResult = "UNKNOWN CONTEXT" ++ " - " ++ code ++ " - " ++ msg)
    ∧ (TechnicalErrorResultDetails.make
          { context := some ["Domain", "App", "Service", "op"], errorInstanceId := none,
            correlationId := none, errorCode := some "TE",
            errorMessage := some "boom" }).formatErrorResult
        = "Domain.App.Service.op - TE - boom" := by
  refine ⟨?_, ?_, ?_⟩
  · intro d ctx code msg hctx hne hcode hmsg
    simp [AbstractErrorResultDetails.formatErrorResult, AbstractErrorResultDetails.errorCode,
      AbstractErrorResultDetails.errorMessage, LoggingUtils.formatStandardCallerContext,
      hctx, hcode, hmsg, List.length_eq_zero, hne]
  · intro d code msg hctx hcode hmsg
    rcases hctx with h | h <;>
      simp [AbstractErrorResultDetails.formatErrorResult, AbstractErrorResultDetails.errorCode,
        AbstractErrorResultDetails.errorMessage, LoggingUtils.formatStandardCallerContext,
        h, hcode, hmsg]
  · decide

/-- C7 witness: the shape equations at concrete details. -/
theorem C7_format_error_result_witness :
    sampleDetails.context = some ["X"]
    ∧ sampleDetails.formatErrorResult = String.intercalate "." ["X"] ++ " - " ++ "TE" ++ " - " ++ "boom"
    ∧ (TechnicalErrorResultDetails.make
          { context := none, errorInstanceId := none, correlationId := none,
            errorCode := some "C1", errorMessage := some "m1" }).formatErrorResult
        = "UNKNOWN CONTEXT" ++ " - " ++ "C1" ++ " - " ++ "m1"
    ∧ (TechnicalErrorResultDetails.make
          { context := some ["Domain", "App", "Service", "op"], errorInstanceId := none,
            correlationId := none, errorCode := some "TE",
            errorMessage := some "boom" }).formatErrorResult
        = "Domain.App.Service.op - TE - boom" :=
  ⟨rfl,
    C7_format_error_result.1 sampleDetails ["X"] "TE" "boom" rfl (by decide) rfl rfl,
    C7_format_error_result.2.1 _ "C1" "m1" (Or.inl rfl) rfl rfl,
    C7_format_error_result.2.2⟩

/-- C9 counterexample: an ErrorDetail constructed with an explicitly
supplied empty `errorMessage` yields an empty message segment in
`formatErrorResult` — the `?? defaultErrorMessage` substitution only
fires for an absent message, not an empty one.  The formatted string
ends in ` - ` with nothing after it. -/
theorem C9_counterexample_empty_message :
    (TechnicalErrorResultDetails.make
        { context := some ["X"], errorInstanceId := none, correlationId := none,
          errorCode := some "C", errorMessage := some "" }).formatErrorResult = "X - C - "
    ∧ (TechnicalErrorResultDetails.make
        { context := some ["X"], errorInstanceId := none, correlationId := none,
          errorCode := some "C", errorMessage := some "" }).errorMessage = "" := by
  constructor
  · decide
  · decide

/-- C9 (amended): without an `errorCode` the error-code segment of
`formatErrorResult` is empty; the message segment is always the (string)
value of the `errorMessage` accessor, so the undefined-guard on it in
`formatErrorResult` is unreachable; and whenever no message was supplied
the accessor substitutes the fixed non-empty default
`Sorry, something went wrong.` — but a supplied empty message yields an
empty segment (see the counterexample). -/
theorem C9_message_segment_amended :
    (∀ d : AbstractErrorResultDetails, d.errorCodeField = none →
        d.formatErrorResult
          = LoggingUtils.formatStandardCallerContext d.context ++ " - " ++ "" ++ " - "
              ++ d.errorMessage)
    ∧ (∀ d : AbstractErrorResultDetails,
        d.formatErrorResult
          = LoggingUtils.formatStandardCallerContext d.context ++ " - "
              ++ (d.errorCodeField.getD "") ++ " - " ++ d.errorMessage)
    ∧ (∀ d : AbstractErrorResultDetails, d.errorMessageField = none →
        d.errorMessage = AbstractErrorResultDetails.defaultErrorMessage
        ∧ d.errorMessage ≠ "") := by
  refine ⟨?_, ?_, ?_⟩
  · intro d hcode
    simp [AbstractErrorResultDetails.formatErrorResult, AbstractErrorResultDetails.errorCode,
      hcode]
  · intro d
    cases hcode : d.errorCodeField <;>
      simp [AbstractErrorResultDetails.formatErrorResult, AbstractErrorResultDetails.errorCode,
        hcode]
  · intro d hmsg
    constructor
    · simp [AbstractErrorResultDetails.errorMessage, hmsg]
    · simp [AbstractErrorResultDetails.errorMessage, hmsg,
        AbstractErrorResultDetails.defaultErrorMessage]

/-- C9 witness: the amended statements at concrete details without an
error code and without a message. -/
theorem C9_message_segment_amended_witness :
    (TechnicalErrorResultDetails.make
        { context := some ["X"], errorInstanceId := none, correlationId := none,
          errorCode := none, errorMessage := none }).errorCodeField = none
    ∧ (TechnicalErrorResultDetails.make
        { context := some ["X"], errorInstanceId := none, correlationId := none,
          errorCode := none, errorMessage := none }).formatErrorResult
        = LoggingUtils.formatStandardCallerContext (some ["X"]) ++ " - " ++ "" ++ " - "
            ++ AbstractErrorResultDetails.defaultErrorMessage
    ∧ (TechnicalErrorResultDetails.make
        { context := some ["X"], errorInstanceId := none, correlationId := none,
          errorCode := none, errorMessage := none }).errorMessage
        = AbstractErrorResultDetails.defaultErrorMessage
    ∧ (TechnicalErrorResultDetails.make
        { context := some ["X"], errorInstanceId := none, correlationId := none,
          errorCode := none, errorMessage := none }).errorMessage ≠ "" :=
  ⟨rfl,
    C9_message_segment_amended.1 _ rfl,
    (C9_message_segment_amended.2.2 _ rfl).1,
    (C9_message_segment_amended.2.2 _ rfl).2⟩

/-- C8: an `ApiErrorResultDetails` stores
`apiErrorResponse.title ?? apiErrorResponse.detail` as its message (so
the accessor yields the title when present, and falls back to the
detail), stores the `instance` field of the response as its error instance id
(so the accessor returns a supplied one unchanged), and exposes the full
original response via `errorResponse`. -/
theorem C8_api_error_details (options : ApiErrorResultConstructorOptions)
    (resp : StandardApiErrorResponse) (r : Fin 8 → Fin 36) :
    (ApiErrorResultDetails.make options resp).errorMessageField
        = (match resp.title with
           | some t => some t
           | none => resp.detail)
    ∧ (∀ t, resp.title = some t →
        (ApiErrorResultDetails.make options resp).errorMessage = t)
    ∧ (∀ dt, resp.title = none → resp.detail = some dt →
        (ApiErrorResultDetails.make options resp).errorMessage = dt)
    ∧ (ApiErrorResultDetails.make options resp).errorInstanceIdField = resp.instanceField
    ∧ (∀ i, resp.instanceField = some i →
        ((ApiErrorResultDetails.make options resp).errorInstanceIdGet r).1 = i)
    ∧ (ApiErrorResultDetails.make options resp).errorResponse = some resp
    ∧ (ApiErrorResultDetails.make options resp).discriminantTag = .ApiError := by
  refine ⟨rfl, ?_, ?_, rfl, ?_, rfl, rfl⟩
  · intro t ht
    simp [ApiErrorResultDetails.make, AbstractErrorResultDetails.errorMessage, ht]
  · intro dt ht hdt
    simp [ApiErrorResultDetails.make, AbstractErrorResultDetails.errorMessage, ht, hdt]
  · intro i hi
    simp [ApiErrorResultDetails.make, AbstractErrorResultDetails.errorInstanceIdGet, hi]

/-- C8 witness: a concrete response with a title and an instance id. -/
theorem C8_api_error_details_witness :
    ({ type := "about:blank", title := some "Bad things", status := 500,
       detail := some "More detail", instanceField := some "IID-1",
       extensionFields := [] } : StandardApiErrorResponse).title = some "Bad things"
    ∧ (ApiErrorResultDetails.make
          { context := some ["Api"], correlationId := none, errorCode := some "API" }
          { type := "about:blank", title := some "Bad things", status := 500,
            detail := some "More detail", instanceField := some "IID-1",
            extensionFields := [] }).errorMessage = "Bad things"
    ∧ ((ApiErrorResultDetails.make
          { context := some ["Api"], correlationId := none, errorCode := some "API" }
          { type := "about:blank", title := some "Bad things", status := 500,
            detail := some "More detail", instanceField := some "IID-1",
            extensionFields := [] }).errorInstanceIdGet (fun _ => 0)).1 = "IID-1"
    ∧ (ApiErrorResultDetails.make
          { context := some ["Api"], correlationId := none, errorCode := some "API" }
          { type := "about:blank", title := some "Bad things", status := 500,
            detail := some "More detail", instanceField := some "IID-1",
            extensionFields := [] }).errorResponse
        = some { type := "about:blank", title := some "Bad things", status := 500,
                 detail := some "More detail", instanceField := some "IID-1",
                 extensionFields := [] } :=
  ⟨rfl,
    (C8_api_error_details _ _ (fun _ => 0)).2.1 "Bad things" rfl,
    (C8_api_error_details _ _ (fun _ => 0)).2.2.2.2.1 "IID-1" rfl,
    (C8_api_error_details _ _ (fun _ => 0)).2.2.2.2.2.1⟩

/-- Every character the id generator can pick is in `[A-Z0-9]`. -/
theorem pickCharacter_isUpperAlnum :
    ∀ i : Fin 36, isUpperAlnum (ErrorUtils.pickCharacter i) = true := by
  decide

/-- Every generated error instance id matches `[A-Z0-9]\x7b4\x7d-[A-Z0-9]\x7b4\x7d`. -/
theorem createErrorInstanceId_format (r : Fin 8 → Fin 36) :
    matchesErrorInstanceIdFormat (ErrorUtils.createErrorInstanceId r) = true := by
  simp [ErrorUtils.createErrorInstanceId, matchesErrorInstanceIdFormat,
    pickCharacter_isUpperAlnum]

/-- C6: when no `errorInstanceId` was supplied, the first read of the
accessor generates an id matching `[A-Z0-9]\x7b4\x7d-[A-Z0-9]\x7b4\x7d`
and memoizes it, so a second read (with a fresh random source `r2`)
returns the identical value; when one was supplied, reads return it
unchanged and leave the instance untouched. -/
theorem C6_lazy_error_instance_id :
    (∀ (d : AbstractErrorResultDetails) (r r2 : Fin 8 → Fin 36),
        d.errorInstanceIdField = none →
        ((d.errorInstanceIdGet r).2.errorInstanceIdGet r2).1 = (d.errorInstanceIdGet r).1
        ∧ matchesErrorInstanceIdFormat (d.errorInstanceIdGet r).1 = true)
    ∧ (∀ (d : AbstractErrorResultDetails) (s : String) (r : Fin 8 → Fin 36),
        d.errorInstanceIdField = some s →
        d.errorInstanceIdGet r = (s, d)) := by
  constructor
  · intro d r r2 hnone
    constructor
    · simp [AbstractErrorResultDetails.errorInstanceIdGet, hnone]
    · simp [AbstractErrorResultDetails.errorInstanceIdGet, hnone,
        createErrorInstanceId_format]
  · intro d s r hsome
    simp [AbstractErrorResultDetails.errorInstanceIdGet, hsome]

/-- C6 witness: both branches at concrete details and random sources. -/
theorem C6_lazy_error_instance_id_witness :
    (TechnicalErrorResultDetails.make
        { context := none, errorInstanceId := none, correlationId := none,
          errorCode := none, errorMessage := none }).errorInstanceIdField = none
    ∧ (((TechnicalErrorResultDetails.make
          { context := none, errorInstanceId := none, correlationId := none,
            errorCode := none, errorMessage := none }).errorInstanceIdGet
            (fun _ => 0)).2.errorInstanceIdGet (fun _ => 1)).1
        = ((TechnicalErrorResultDetails.make
          { context := none, errorInstanceId := none, correlationId := none,
            errorCode := none, errorMessage := none }).errorInstanceIdGet (fun _ => 0)).1
    ∧ matchesErrorInstanceIdFormat
        ((TechnicalErrorResultDetails.make
          { context := none, errorInstanceId := none, correlationId := none,
            errorCode := none, errorMessage := none }).errorInstanceIdGet (fun _ => 0)).1
        = true
    ∧ (TechnicalErrorResultDetails.make
        { context := none, errorInstanceId := some "AB12-CD34", correlationId := none,
          errorCode := none, errorMessage := none }).errorInstanceIdField = some "AB12-CD34"
    ∧ (TechnicalErrorResultDetails.make
        { context := none, errorInstanceId := some "AB12-CD34", correlationId := none,
          errorCode := none, errorMessage := none }).errorInstanceIdGet (fun _ => 0)
        = ("AB12-CD34",
           TechnicalErrorResultDetails.make
             { context := none, errorInstanceId := some "AB12-CD34", correlationId := none,
               errorCode := none, errorMessage := none }) :=
  ⟨rfl,
    (C6_lazy_error_instance_id.1 _ (fun _ => 0) (fun _ => 1) rfl).1,
    (C6_lazy_error_instance_id.1 _ (fun _ => 0) (fun _ => 1) rfl).2,
    rfl,
    C6_lazy_error_instance_id.2 _ "AB12-CD34" (fun _ => 0) rfl⟩

/-- C4 counterexample: for the caught value `undefined`,
`JSON.stringify` yields the JS value `undefined` (not a string), so no
stringification of the caught value reaches the error message — the
stored message is absent and the accessor falls back to the fixed
default, which is not the raw coercion `undefined` either. -/
theorem C4_counterexample_undefined_not_stringified :
    ((ResultFactory.fromErrorObject sampleLogProps JsValue.vUndefined
        : Result Nat × List LogEntry).1).errorDetails.map
        (fun d => d.errorMessageField) = some none
    ∧ ((ResultFactory.fromErrorObject sampleLogProps JsValue.vUndefined
        : Result Nat × List LogEntry).1).errorDetails.map
        (fun d => d.errorMessage) = some "Sorry, something went wrong."
    ∧ "Sorry, something went wrong." ≠ stringCoerce JsValue.vUndefined := by
  refine ⟨?_, ?_, ?_⟩ <;> decide

/-- C4 (amended): `fromErrorObject` classifies null/undefined/non-object
caught values as Technical, `AssertionFailedError` instances as
AssertionFailed, and every other object as Technical; the stored error
message is exactly `ErrorUtils.toErrorString` of the caught value, so
for every caught value other than `undefined` the caught value is
converted to a string in the resulting error message (strings pass
through, Error instances are serialised as message/name/stack/cause,
other values are JSON-serialised with a raw string coercion fallback);
for `undefined` the stringification yields no string and the message
falls back to the default. -/
theorem C4_from_error_object_amended {α : Type}
    (lp : StandardLogPropertiesCore) (err : JsValue) :
    ((ResultFactory.fromErrorObject lp err : Result α × List LogEntry).1).isError = true
    ∧ ((ObjectUtils.isNullOrUndefined err || !ObjectUtils.isTypeOfObject err) = true →
        ((ResultFactory.fromErrorObject lp err : Result α × List LogEntry).1).errorDetails.map
          (fun d => d.discriminantTag) = some .TechnicalError)
    ∧ (AssertionFailedError.isInstance err = true →
        ((ResultFactory.fromErrorObject lp err : Result α × List LogEntry).1).errorDetails.map
          (fun d => d.discriminantTag) = some .AssertionFailedError)
    ∧ (ObjectUtils.isTypeOfObject err = true → AssertionFailedError.isInstance err = false →
        ((ResultFactory.fromErrorObject lp err : Result α × List LogEntry).1).errorDetails.map
          (fun d => d.discriminantTag) = some .TechnicalError)
    ∧ ((ResultFactory.fromErrorObject lp err : Result α × List LogEntry).1).errorDetails.map
        (fun d => d.errorMessageField) = some (ErrorUtils.toErrorString err)
    ∧ (∀ s, ErrorUtils.toErrorString err = some s →
        ((ResultFactory.fromErrorObject lp err : Result α × List LogEntry).1).errorDetails.map
          (fun d => d.errorMessage) = some s)
    ∧ (err ≠ .vUndefined → (ErrorUtils.toErrorString err).isSome = true)
    ∧ (err = .vUndefined →
        ((ResultFactory.fromErrorObject lp err : Result α × List LogEntry).1).errorDetails.map
          (fun d => d.errorMessage)
          = some AbstractErrorResultDetails.defaultErrorMessage) := by
  cases err <;>
    simp [ResultFactory.fromErrorObject, ObjectUtils.isNullOrUndefined,
      ObjectUtils.isTypeOfObject, AssertionFailedError.isInstance,
      ResultFactory.technicalError, ResultFactory.assertionFailedError,
      ResultFactory.createErrorResultConstructorOptions, TechnicalErrorResultDetails.make,
      AssertionFailedErrorResultDetails.make, Result.errorDetails, Result.isError,
      optStringToJs, ErrorUtils.toErrorString, StringUtils.isString, jsonStringify,
      stringCoerce, AbstractErrorResultDetails.errorMessage,
      AbstractErrorResultDetails.defaultErrorMessage,
      StandardLogPropertiesCore.toFactoryOptions]

/-- C4 witness: the amended classification and stringification at
concrete caught values of each kind. -/
theorem C4_from_error_object_amended_witness :
    ((ObjectUtils.isNullOrUndefined (JsValue.vString "oops")
        || !ObjectUtils.isTypeOfObject (JsValue.vString "oops")) = true
      ∧ ((ResultFactory.fromErrorObject sampleLogProps (JsValue.vString "oops")
            : Result Nat × List LogEntry).1).errorDetails.map
          (fun d => d.discriminantTag) = some .TechnicalError)
    ∧ (AssertionFailedError.isInstance (JsValue.vAssertionFailedError "bad" none none) = true
      ∧ ((ResultFactory.fromErrorObject sampleLogProps
            (JsValue.vAssertionFailedError "bad" none none)
            : Result Nat × List LogEntry).1).errorDetails.map
          (fun d => d.discriminantTag) = some .AssertionFailedError)
    ∧ (ObjectUtils.isTypeOfObject (JsValue.vPlainObject "\x7b\x7d") = true
      ∧ AssertionFailedError.isInstance (JsValue.vPlainObject "\x7b\x7d") = false
      ∧ ((ResultFactory.fromErrorObject sampleLogProps (JsValue.vPlainObject "\x7b\x7d")
            : Result Nat × List LogEntry).1).errorDetails.map
          (fun d => d.discriminantTag) = some .TechnicalError)
    ∧ (ErrorUtils.toErrorString (JsValue.vString "oops") = some "oops"
      ∧ ((ResultFactory.fromErrorObject sampleLogProps (JsValue.vString "oops")
            : Result Nat × List LogEntry).1).errorDetails.map
          (fun d => d.errorMessage) = some "oops")
    ∧ ((ResultFactory.fromErrorObject sampleLogProps JsValue.vUndefined
          : Result Nat × List LogEntry).1).errorDetails.map
        (fun d => d.errorMessage) = some AbstractErrorResultDetails.defaultErrorMessage :=
  ⟨⟨by decide,
     (C4_from_error_object_amended sampleLogProps (JsValue.vString "oops")).2.1 (by decide)⟩,
   ⟨by decide,
     (C4_from_error_object_amended sampleLogProps
        (JsValue.vAssertionFailedError "bad" none none)).2.2.1 (by decide)⟩,
   ⟨by decide, by decide,
     (C4_from_error_object_amended sampleLogProps
        (JsValue.vPlainObject "\x7b\x7d")).2.2.2.1 (by decide) (by decide)⟩,
   ⟨by decide,
     (C4_from_error_object_amended sampleLogProps
        (JsValue.vString "oops")).2.2.2.2.2.1 "oops" (by decide)⟩,
   (C4_from_error_object_amended sampleLogProps JsValue.vUndefined).2.2.2.2.2.2.2 rfl⟩

/-- Extracting details from a normally returned result. -/
theorem resultDetailsOf_ok (r : Result β) :
    resultDetailsOf (.ok r) = r.errorDetails := by
  cases r <;> rfl

/-- Every error result built by `fromErrorObject` carries an undefined
error code: both its branches pass `undefined` to the factory. -/
theorem fromErrorObject_errorCode_none {α : Type}
    (lp : StandardLogPropertiesCore) (err : JsValue) :
    ((ResultFactory.fromErrorObject lp err : Result α × List LogEntry).1).errorDetails.map
      (fun d => d.errorCodeField) = some none := by
  cases err <;>
    simp [ResultFactory.fromErrorObject, ObjectUtils.isNullOrUndefined,
      ObjectUtils.isTypeOfObject, AssertionFailedError.isInstance,
      ResultFactory.technicalError, ResultFactory.assertionFailedError,
      ResultFactory.createErrorResultConstructorOptions, TechnicalErrorResultDetails.make,
      AssertionFailedErrorResultDetails.make, Result.errorDetails,
      StandardLogPropertiesCore.toFactoryOptions]

/-- C10: error codes on the default exception-to-Result paths.  The
factory path (`fromErrorObject`, hence `tryCatchDefault`,
`tryCatchDefaultAsync`, `wrapDefault`, `wrapDefaultAsync`) stores an
undefined `errorCode`; the fixed `UNEXPECTED` marker is applied exactly
by the operation-level CatchDefault methods (`mapCatchDefault`,
`andThenCatchDefault`, `foldCatchDefault`, `orElseCatchDefault`) when
their protected callback throws. -/
theorem C10_unexpected_marker_scope {α β γ δ : Type}
    (lp : StandardLogPropertiesCore) (err : JsValue)
    (fn : Unit → Except JsValue α) (gfn : δ → Except JsValue α) (args : δ)
    (v : α) (onOk : α → Except JsValue β) (onOkR : α → Except JsValue (Result β))
    (onErrC : AbstractErrorResultDetails → Except JsValue γ)
    (onErrR : AbstractErrorResultDetails → Except JsValue (Result α))
    (d0 : AbstractErrorResultDetails) :
    ((ResultFactory.fromErrorObject lp err : Result α × List LogEntry).1).errorDetails.map
        (fun d => d.errorCodeField) = some none
    ∧ (fn () = .error err →
        (resultDetailsOf (ResultFactory.tryCatchDefault lp fn).1).map
          (fun d => d.errorCodeField) = some none)
    ∧ (fn () = .error err →
        (resultDetailsOf (ResultFactory.tryCatchDefaultAsync lp fn).1).map
          (fun d => d.errorCodeField) = some none)
    ∧ (gfn args = .error err →
        (resultDetailsOf ((ResultFactory.wrapDefault lp gfn) args).1).map
          (fun d => d.errorCodeField) = some none)
    ∧ (gfn args = .error err →
        (resultDetailsOf ((ResultFactory.wrapDefaultAsync lp gfn) args).1).map
          (fun d => d.errorCodeField) = some none)
    ∧ (onOk v = .error err →
        (resultDetailsOf (Result.mapCatchDefault (.okResult v) lp onOk).1).map
          (fun d => d.errorCodeField) = some (some "UNEXPECTED"))
    ∧ (onOkR v = .error err →
        (resultDetailsOf (Result.andThenCatchDefault (.okResult v) lp onOkR).1).map
          (fun d => d.errorCodeField) = some (some "UNEXPECTED"))
    ∧ (onOk v = .error err →
        (foldReturnDetailsOf (Result.foldCatchDefault (.okResult v) lp onOk onErrC).1).map
          (fun d => d.errorCodeField) = some (some "UNEXPECTED"))
    ∧ (onErrR d0 = .error err →
        (resultDetailsOf (Result.orElseCatchDefault (.errorResult d0) lp onErrR).1).map
          (fun d => d.errorCodeField) = some (some "UNEXPECTED")) := by
  refine ⟨fromErrorObject_errorCode_none lp err, ?_, ?_, ?_, ?_, ?_, ?_, ?_, ?_⟩
  · intro h
    simpa [ResultFactory.tryCatchDefault, h, resultDetailsOf_ok] using
      fromErrorObject_errorCode_none (α := α) lp err
  · intro h
    simpa [ResultFactory.tryCatchDefaultAsync, h, resultDetailsOf_ok] using
      fromErrorObject_errorCode_none (α := α) lp err
  · intro h
    simpa [ResultFactory.wrapDefault, ResultFactory.tryCatchDefault, h, resultDetailsOf_ok] using
      fromErrorObject_errorCode_none (α := α) lp err
  · intro h
    simpa [ResultFactory.wrapDefaultAsync, ResultFactory.tryCatchDefaultAsync, h,
      resultDetailsOf_ok] using
      fromErrorObject_errorCode_none (α := α) lp err
  · intro h
    simp [Result.mapCatchDefault, h, ResultFactory.technicalError,
      ResultFactory.createErrorResultConstructorOptions, TechnicalErrorResultDetails.make,
      resultDetailsOf, StandardLogPropertiesCore.toFactoryOptions]
  · intro h
    simp [Result.andThenCatchDefault, h, ResultFactory.technicalError,
      ResultFactory.createErrorResultConstructorOptions, TechnicalErrorResultDetails.make,
      resultDetailsOf, StandardLogPropertiesCore.toFactoryOptions]
  · intro h
    simp [Result.foldCatchDefault, h, ResultFactory.technicalError,
      ResultFactory.createErrorResultConstructorOptions, TechnicalErrorResultDetails.make,
      foldReturnDetailsOf, StandardLogPropertiesCore.toFactoryOptions]
  · intro h
    simp [Result.orElseCatchDefault, h, ResultFactory.technicalError,
      ResultFactory.createErrorResultConstructorOptions, TechnicalErrorResultDetails.make,
      resultDetailsOf, StandardLogPropertiesCore.toFactoryOptions]

/-- C10 witness: the error-code scope at a concrete throwing callback. -/
theorem C10_unexpected_marker_scope_witness :
    ((ResultFactory.fromErrorObject sampleLogProps (JsValue.vString "bad")
        : Result Nat × List LogEntry).1).errorDetails.map
        (fun d => d.errorCodeField) = some none
    ∧ (resultDetailsOf (ResultFactory.tryCatchDefault sampleLogProps
          (fun (_ : Unit) => (Except.error (JsValue.vString "bad") : Except JsValue Nat))).1).map
        (fun d => d.errorCodeField) = some none
    ∧ (resultDetailsOf (ResultFactory.tryCatchDefaultAsync sampleLogProps
          (fun (_ : Unit) => (Except.error (JsValue.vString "bad") : Except JsValue Nat))).1).map
        (fun d => d.errorCodeField) = some none
    ∧ (resultDetailsOf ((ResultFactory.wrapDefault sampleLogProps
          (fun (_ : Nat) => (Except.error (JsValue.vString "bad") : Except JsValue Nat))) 0).1).map
        (fun d => d.errorCodeField) = some none
    ∧ (resultDetailsOf ((ResultFactory.wrapDefaultAsync sampleLogProps
          (fun (_ : Nat) => (Except.error (JsValue.vString "bad") : Except JsValue Nat))) 0).1).map
        (fun d => d.errorCodeField) = some none
    ∧ (resultDetailsOf (Result.mapCatchDefault (.okResult 0) sampleLogProps
          (fun (_ : Nat) => (Except.error (JsValue.vString "bad") : Except JsValue Nat))).1).map
        (fun d => d.errorCodeField) = some (some "UNEXPECTED")
    ∧ (resultDetailsOf (Result.andThenCatchDefault (.okResult 0) sampleLogProps
          (fun (_ : Nat) =>
            (Except.error (JsValue.vString "bad") : Except JsValue (Result Nat)))).1).map
        (fun d => d.errorCodeField) = some (some "UNEXPECTED")
    ∧ (foldReturnDetailsOf (Result.foldCatchDefault (.okResult 0) sampleLogProps
          (fun (_ : Nat) => (Except.error (JsValue.vString "bad") : Except JsValue Nat))
          (fun _ => (Except.ok 0 : Except JsValue Nat))).1).map
        (fun d => d.errorCodeField) = some (some "UNEXPECTED")
    ∧ (resultDetailsOf (Result.orElseCatchDefault (.errorResult sampleDetails) sampleLogProps
          (fun _ =>
            (Except.error (JsValue.vString "bad") : Except JsValue (Result Nat)))).1).map
        (fun d => d.errorCodeField) = some (some "UNEXPECTED") :=
  ⟨(C10_unexpected_marker_scope sampleLogProps (JsValue.vString "bad")
      (fun (_ : Unit) => (Except.error (JsValue.vString "bad") : Except JsValue Nat))
      (fun (_ : Nat) => (Except.error (JsValue.vString "bad") : Except JsValue Nat)) 0
      0 (fun (_ : Nat) => (Except.error (JsValue.vString "bad") : Except JsValue Nat))
      (fun (_ : Nat) => (Except.error (JsValue.vString "bad") : Except JsValue (Result Nat)))
      (fun _ => (Except.ok 0 : Except JsValue Nat))
      (fun _ => (Except.error (JsValue.vString "bad") : Except JsValue (Result Nat)))
      sampleDetails).1,
   (C10_unexpected_marker_scope sampleLogProps (JsValue.vString "bad")
      (fun (_ : Unit) => (Except.error (JsValue.vString "bad") : Except JsValue Nat))
      (fun (_ : Nat) => (Except.error (JsValue.vString "bad") : Except JsValue Nat)) 0
      0 (fun (_ : Nat) => (Except.error (JsValue.vString "bad") : Except JsValue Nat))
      (fun (_ : Nat) => (Except.error (JsValue.vString "bad") : Except JsValue (Result Nat)))
      (fun _ => (Except.ok 0 : Except JsValue Nat))
      (fun _ => (Except.error (JsValue.vString "bad") : Except JsValue (Result Nat)))
      sampleDetails).2.1 rfl,
   (C10_unexpected_marker_scope sampleLogProps (JsValue.vString "bad")
      (fun (_ : Unit) => (Except.error (JsValue.vString "bad") : Except JsValue Nat))
      (fun (_ : Nat) => (Except.error (JsValue.vString "bad") : Except JsValue Nat)) 0
      0 (fun (_ : Nat) => (Except.error (JsValue.vString "bad") : Except JsValue Nat))
      (fun (_ : Nat) => (Except.error (JsValue.vString "bad") : Except JsValue (Result Nat)))
      (fun _ => (Except.ok 0 : Except JsValue Nat))
      (fun _ => (Except.error (JsValue.vString "bad") : Except JsValue (Result Nat)))
      sampleDetails).2.2.1 rfl,
   (C10_unexpected_marker_scope sampleLogProps (JsValue.vString "bad")
      (fun (_ : Unit) => (Except.error (JsValue.vString "bad") : Except JsValue Nat))
      (fun (_ : Nat) => (Except.error (JsValue.vString "bad") : Except JsValue Nat)) 0
      0 (fun (_ : Nat) => (Except.error (JsValue.vString "bad") : Except JsValue Nat))
      (fun (_ : Nat) => (Except.error (JsValue.vString "bad") : Except JsValue (Result Nat)))
      (fun _ => (Except.ok 0 : Except JsValue Nat))
      (fun _ => (Except.error (JsValue.vString "bad") : Except JsValue (Result Nat)))
      sampleDetails).2.2.2.1 rfl,
   (C10_unexpected_marker_scope sampleLogProps (JsValue.vString "bad")
      (fun (_ : Unit) => (Except.error (JsValue.vString "bad") : Except JsValue Nat))
      (fun (_ : Nat) => (Except.error (JsValue.vString "bad") : Except JsValue Nat)) 0
      0 (fun (_ : Nat) => (Except.error (JsValue.vString "bad") : Except JsValue Nat))
      (fun (_ : Nat) => (Except.error (JsValue.vString "bad") : Except JsValue (Result Nat)))
      (fun _ => (Except.ok 0 : Except JsValue Nat))
      (fun _ => (Except.error (JsValue.vString "bad") : Except JsValue (Result Nat)))
      sampleDetails).2.2.2.2.1 rfl,
   (C10_unexpected_marker_scope sampleLogProps (JsValue.vString "bad")
      (fun (_ : Unit) => (Except.error (JsValue.vString "bad") : Except JsValue Nat))
      (fun (_ : Nat) => (Except.error (JsValue.vString "bad") : Except JsValue Nat)) 0
      0 (fun (_ : Nat) => (Except.error (JsValue.vString "bad") : Except JsValue Nat))
      (fun (_ : Nat) => (Except.error (JsValue.vString "bad") : Except JsValue (Result Nat)))
      (fun _ => (Except.ok 0 : Except JsValue Nat))
      (fun _ => (Except.error (JsValue.vString "bad") : Except JsValue (Result Nat)))
      sampleDetails).2.2.2.2.2.1 rfl,
   (C10_unexpected_marker_scope sampleLogProps (JsValue.vString "bad")
      (fun (_ : Unit) => (Except.error (JsValue.vString "bad") : Except JsValue Nat))
      (fun (_ : Nat) => (Except.error (JsValue.vString "bad") : Except JsValue Nat)) 0
      0 (fun (_ : Nat) => (Except.error (JsValue.vString "bad") : Except JsValue Nat))
      (fun (_ : Nat) => (Except.error (JsValue.vString "bad") : Except JsValue (Result Nat)))
      (fun _ => (Except.ok 0 : Except JsValue Nat))
      (fun _ => (Except.error (JsValue.vString "bad") : Except JsValue (Result Nat)))
      sampleDetails).2.2.2.2.2.2.1 rfl,
   (C10_unexpected_marker_scope sampleLogProps (JsValue.vString "bad")
      (fun (_ : Unit) => (Except.error (JsValue.vString "bad") : Except JsValue Nat))
      (fun (_ : Nat) => (Except.error (JsValue.vString "bad") : Except JsValue Nat)) 0
      0 (fun (_ : Nat) => (Except.error (JsValue.vString "bad") : Except JsValue Nat))
      (fun (_ : Nat) => (Except.error (JsValue.vString "bad") : Except JsValue (Result Nat)))
      (fun _ => (Except.ok 0 : Except JsValue Nat))
      (fun _ => (Except.error (JsValue.vString "bad") : Except JsValue (Result Nat)))
      sampleDetails).2.2.2.2.2.2.2.1 rfl,
   (C10_unexpected_marker_scope sampleLogProps (JsValue.vString "bad")
      (fun (_ : Unit) => (Except.error (JsValue.vString "bad") : Except JsValue Nat))
      (fun (_ : Nat) => (Except.error (JsValue.vString "bad") : Except JsValue Nat)) 0
      0 (fun (_ : Nat) => (Except.error (JsValue.vString "bad") : Except JsValue Nat))
      (fun (_ : Nat) => (Except.error (JsValue.vString "bad") : Except JsValue (Result Nat)))
      (fun _ => (Except.ok 0 : Except JsValue Nat))
      (fun _ => (Except.error (JsValue.vString "bad") : Except JsValue (Result Nat)))
      sampleDetails).2.2.2.2.2.2.2.2 rfl⟩

/-- C5 counterexample: `foldCatchDefault` is a CatchDefault-family
operation method, yet on an error result it invokes `onError` with no
try/catch around it, so a throw from `onError` escapes to the caller
instead of a Result being returned. -/
theorem C5_counterexample_fold_on_error_escapes :
    (Result.foldCatchDefault (.errorResult sampleDetails : Result Nat) sampleLogProps
        (fun (v : Nat) => (Except.ok v : Except JsValue Nat))
        (fun _ => (Except.error (JsValue.vString "onErrorBoom") : Except JsValue Nat))).1
      = .error (JsValue.vString "onErrorBoom")
    ∧ returnsNormally
        (Result.foldCatchDefault (.errorResult sampleDetails : Result Nat) sampleLogProps
          (fun (v : Nat) => (Except.ok v : Except JsValue Nat))
          (fun _ => (Except.error (JsValue.vString "onErrorBoom") : Except JsValue Nat))).1
      = false := by
  constructor
  · rfl
  · rfl

/-- C5 (amended): the exception-containment guarantee of the
Default/Catch families covers the wrapped function and the protected
`onOk` callback.  Every Default-family call returns normally for every
(possibly throwing) wrapped function, and every Catch-family call
returns normally whenever the caller-supplied error result factory
itself returns normally (factories are quantified in the returning form
`fun e => .ok (tfac e)`); for the fold operations the guarantee covers
the ok-result side, since their `onError` callback is deliberately
unprotected (see the counterexample), as is a throw from a Catch-family
factory itself. -/
theorem C5_exception_containment_amended {α β γ δ : Type}
    (lp : StandardLogPropertiesCore)
    (fn : Unit → Except JsValue α) (gfn : δ → Except JsValue α) (args : δ)
    (tfac : JsValue → Result α) (tfacB : JsValue → Result β)
    (r : Result α) (v : α)
    (onOk : α → Except JsValue β)
    (onOkR : α → Except JsValue (Result β))
    (onErrR : AbstractErrorResultDetails → Except JsValue (Result α))
    (onErrC : AbstractErrorResultDetails → Except JsValue γ) :
    returnsNormally (ResultFactory.tryCatchDefault lp fn).1 = true
    ∧ returnsNormally (ResultFactory.tryCatchDefaultAsync lp fn).1 = true
    ∧ returnsNormally (ResultFactory.tryCatch fn (fun e => .ok (tfac e))).1 = true
    ∧ returnsNormally (ResultFactory.tryCatchAsync fn (fun e => .ok (tfac e))).1 = true
    ∧ returnsNormally ((ResultFactory.wrapDefault lp gfn) args).1 = true
    ∧ returnsNormally ((ResultFactory.wrapDefaultAsync lp gfn) args).1 = true
    ∧ returnsNormally ((ResultFactory.wrap gfn (fun e => .ok (tfac e))) args).1 = true
    ∧ returnsNormally ((ResultFactory.wrapAsync gfn (fun e => .ok (tfac e))) args).1 = true
    ∧ returnsNormally (Result.mapCatchDefault r lp onOk).1 = true
    ∧ returnsNormally (Result.mapCatch r onOk (fun e => .ok (tfacB e))).1 = true
    ∧ returnsNormally (Result.andThenCatchDefault r lp onOkR).1 = true
    ∧ returnsNormally (Result.andThenCatch r onOkR (fun e => .ok (tfacB e))).1 = true
    ∧ returnsNormally (Result.orElseCatchDefault r lp onErrR).1 = true
    ∧ returnsNormally (Result.orElseCatch r onErrR (fun e => .ok (tfac e))).1 = true
    ∧ returnsNormally (Result.foldCatchDefault (.okResult v) lp onOk onErrC).1 = true
    ∧ returnsNormally
        (Result.foldCatch (.okResult v) onOk (fun e => .ok (tfacB e)) onErrC).1 = true := by
  refine ⟨?_, ?_, ?_, ?_, ?_, ?_, ?_, ?_, ?_, ?_, ?_, ?_, ?_, ?_, ?_, ?_⟩
  · cases h : fn () <;> simp [ResultFactory.tryCatchDefault, h, returnsNormally]
  · cases h : fn () <;> simp [ResultFactory.tryCatchDefaultAsync, h, returnsNormally]
  · cases h : fn () <;> simp [ResultFactory.tryCatch, h, returnsNormally]
  · cases h : fn () <;> simp [ResultFactory.tryCatchAsync, h, returnsNormally]
  · cases h : gfn args <;>
      simp [ResultFactory.wrapDefault, ResultFactory.tryCatchDefault, h, returnsNormally]
  · cases h : gfn args <;>
      simp [ResultFactory.wrapDefaultAsync, ResultFactory.tryCatchDefaultAsync, h,
        returnsNormally]
  · cases h : gfn args <;>
      simp [ResultFactory.wrap, ResultFactory.tryCatch, h, returnsNormally]
  · cases h : gfn args <;>
      simp [ResultFactory.wrapAsync, ResultFactory.tryCatchAsync, h, returnsNormally]
  · cases r with
    | okResult v0 =>
        cases h : onOk v0 <;> simp [Result.mapCatchDefault, h, returnsNormally]
    | errorResult d => simp [Result.mapCatchDefault, returnsNormally]
  · cases r with
    | okResult v0 =>
        cases h : onOk v0 <;> simp [Result.mapCatch, h, returnsNormally]
    | errorResult d => simp [Result.mapCatch, returnsNormally]
  · cases r with
    | okResult v0 =>
        cases h : onOkR v0 <;> simp [Result.andThenCatchDefault, h, returnsNormally]
    | errorResult d => simp [Result.andThenCatchDefault, returnsNormally]
  · cases r with
    | okResult v0 =>
        cases h : onOkR v0 <;> simp [Result.andThenCatch, h, returnsNormally]
    | errorResult d => simp [Result.andThenCatch, returnsNormally]
  · cases r with
    | okResult v0 => simp [Result.orElseCatchDefault, returnsNormally]
    | errorResult d =>
        cases h : onErrR d <;> simp [Result.orElseCatchDefault, h, returnsNormally]
  · cases r with
    | okResult v0 => simp [Result.orElseCatch, returnsNormally]
    | errorResult d =>
        cases h : onErrR d <;> simp [Result.orElseCatch, h, returnsNormally]
  · cases h : onOk v <;> simp [Result.foldCatchDefault, h, returnsNormally]
  · cases h : onOk v <;> simp [Result.foldCatch, h, returnsNormally]
